import Mathlib

/-!
Shallow embedding of the lifecycle-reconciliation core of the
`crm_followups` application (files `app/db.py`, `app/main.py`,
`app/calendar_service.py`), together with theorems settling the
specification claims about duplicate ingestion, terminal-status
reconciliation, postventa cancellation, KPI close rate, vendor ranking
and stored-event-id reading.

Modelling conventions:
- A SQLite table is a `List` of row structures; rows appear in the list
  in `rowid` (insertion) order, so `ORDER BY id DESC LIMIT 1` is
  `List.getLast?` of the filtered rows.
- Machine strings are `String`; SQLite TEXT comparison on the
  zero-padded ISO timestamps used here agrees with `String` order.
- A text column holding serialized JSON is modelled by its parse
  outcome: `none` for SQL NULL or the empty string (both falsy in
  Python), `some none` for non-empty text that `json.loads` rejects,
  `some (some j)` for text parsing to the JSON value `j`.
- The remote calendar is an environment parameter: deletion outcomes
  are a function from event id to `DelOutcome`, and creation responses
  are passed in as values.
- Fallible Python code (an uncaught exception) is `Except Unit`.
-/

/-- Values produced by Python's `json.loads` (numbers restricted to the
integers this application ever stores). -/
inductive Json where
  | null
  | bool (b : Bool)
  | num (n : Int)
  | str (s : String)
  | arr (elems : List Json)
  | obj (fields : List (String × Json))

mutual

def Json.decEq : (a b : Json) → Decidable (a = b)
  | .null, .null => .isTrue rfl
  | .null, .bool _ => .isFalse (fun h => Json.noConfusion h)
  | .null, .num _ => .isFalse (fun h => Json.noConfusion h)
  | .null, .str _ => .isFalse (fun h => Json.noConfusion h)
  | .null, .arr _ => .isFalse (fun h => Json.noConfusion h)
  | .null, .obj _ => .isFalse (fun h => Json.noConfusion h)
  | .bool _, .null => .isFalse (fun h => Json.noConfusion h)
  | .bool a, .bool b =>
      if h : a = b then .isTrue (by rw [h]) else
        .isFalse (fun hh => by injection hh with e; exact absurd e h)
  | .bool _, .num _ => .isFalse (fun h => Json.noConfusion h)
  | .bool _, .str _ => .isFalse (fun h => Json.noConfusion h)
  | .bool _, .arr _ => .isFalse (fun h => Json.noConfusion h)
  | .bool _, .obj _ => .isFalse (fun h => Json.noConfusion h)
  | .num _, .null => .isFalse (fun h => Json.noConfusion h)
  | .num _, .bool _ => .isFalse (fun h => Json.noConfusion h)
  | .num a, .num b =>
      if h : a = b then .isTrue (by rw [h]) else
        .isFalse (fun hh => by injection hh with e; exact absurd e h)
  | .num _, .str _ => .isFalse (fun h => Json.noConfusion h)
  | .num _, .arr _ => .isFalse (fun h => Json.noConfusion h)
  | .num _, .obj _ => .isFalse (fun h => Json.noConfusion h)
  | .str _, .null => .isFalse (fun h => Json.noConfusion h)
  | .str _, .bool _ => .isFalse (fun h => Json.noConfusion h)
  | .str _, .num _ => .isFalse (fun h => Json.noConfusion h)
  | .str a, .str b =>
      if h : a = b then .isTrue (by rw [h]) else
        .isFalse (fun hh => by injection hh with e; exact absurd e h)
  | .str _, .arr _ => .isFalse (fun h => Json.noConfusion h)
  | .str _, .obj _ => .isFalse (fun h => Json.noConfusion h)
  | .arr _, .null => .isFalse (fun h => Json.noConfusion h)
  | .arr _, .bool _ => .isFalse (fun h => Json.noConfusion h)
  | .arr _, .num _ => .isFalse (fun h => Json.noConfusion h)
  | .arr _, .str _ => .isFalse (fun h => Json.noConfusion h)
  | .arr xs, .arr ys =>
      match Json.decEqList xs ys with
      | .isTrue h => .isTrue (by rw [h])
      | .isFalse h => .isFalse (fun hh => by injection hh with e; exact absurd e h)
  | .arr _, .obj _ => .isFalse (fun h => Json.noConfusion h)
  | .obj _, .null => .isFalse (fun h => Json.noConfusion h)
  | .obj _, .bool _ => .isFalse (fun h => Json.noConfusion h)
  | .obj _, .num _ => .isFalse (fun h => Json.noConfusion h)
  | .obj _, .str _ => .isFalse (fun h => Json.noConfusion h)
  | .obj _, .arr _ => .isFalse (fun h => Json.noConfusion h)
  | .obj xs, .obj ys =>
      match Json.decEqFields xs ys with
      | .isTrue h => .isTrue (by rw [h])
      | .isFalse h => .isFalse (fun hh => by injection hh with e; exact absurd e h)

def Json.decEqList : (xs ys : List Json) → Decidable (xs = ys)
  | [], [] => .isTrue rfl
  | [], _ :: _ => .isFalse (fun h => List.noConfusion h)
  | _ :: _, [] => .isFalse (fun h => List.noConfusion h)
  | x :: xs, y :: ys =>
      match Json.decEq x y with
      | .isFalse h =>
          .isFalse (fun hh => by injection hh with e1 e2; exact absurd e1 h)
      | .isTrue h1 =>
          match Json.decEqList xs ys with
          | .isTrue h2 => .isTrue (by rw [h1, h2])
          | .isFalse h =>
              .isFalse (fun hh => by injection hh with e1 e2; exact absurd e2 h)

def Json.decEqFields : (xs ys : List (String × Json)) → Decidable (xs = ys)
  | [], [] => .isTrue rfl
  | [], _ :: _ => .isFalse (fun h => List.noConfusion h)
  | _ :: _, [] => .isFalse (fun h => List.noConfusion h)
  | (k1, v1) :: xs, (k2, v2) :: ys =>
      if hk : k1 = k2 then
        match Json.decEq v1 v2 with
        | .isFalse h =>
            .isFalse (fun hh => by
              injection hh with e1 e2
              injection e1 with ek ev
              exact absurd ev h)
        | .isTrue hv =>
            match Json.decEqFields xs ys with
            | .isTrue ht => .isTrue (by rw [hk, hv, ht])
            | .isFalse h =>
                .isFalse (fun hh => by injection hh with e1 e2; exact absurd e2 h)
      else
        .isFalse (fun hh => by
          injection hh with e1 e2
          injection e1 with ek ev
          exact absurd ek hk)

end

instance : DecidableEq Json := Json.decEq

/-- Python truthiness `bool(x)` of a parsed JSON value. -/
def Json.truthy : Json → Bool
  | .null => false
  | .bool b => b
  | .num n => n != 0
  | .str s => !s.isEmpty
  | .arr xs => !xs.isEmpty
  | .obj kvs => !kvs.isEmpty

/-- Python `dict.get` on a parsed JSON object (`json.loads` keeps the
last binding of a duplicated key); `none` on a missing key or a
non-object. -/
def Json.get? : Json → String → Option Json
  | .obj kvs, k => ((kvs.reverse).find? (fun kv => kv.1 == k)).map (fun kv => kv.2)
  | _, _ => none

/-- ASCII lowercasing of one character, as Python `str.lower()` acts on
the ASCII status strings this application compares. -/
def lowerChar (c : Char) : Char :=
  if 'A' ≤ c && c ≤ 'Z' then Char.ofNat (c.toNat + 32) else c

/-- Whitespace stripped by Python `str.strip()` (the forms occurring in
form-submitted status strings). -/
def isSpaceChar (c : Char) : Bool :=
  c == ' ' || c == '\t' || c == '\n' || c == '\r'

/-- Python `(s or "").strip().lower()` as applied to status strings in
`app/main.py` (character-level implementation so that terms evaluate). -/
def normStatus (s : String) : String :=
  ⟨(((s.data.dropWhile isSpaceChar).reverse.dropWhile isSpaceChar).reverse).map
    lowerChar⟩

/-- SQLite TEXT (memcmp over UTF-8 bytes) strict comparison, which on
valid UTF-8 agrees with code-point lexicographic order; used for the
`created_at >= ? / < ?` range filters on ISO timestamps. -/
def strLtb : List Char → List Char → Bool
  | [], [] => false
  | [], _ :: _ => true
  | _ :: _, [] => false
  | a :: as, b :: bs =>
      if a < b then true else if b < a then false else strLtb as bs

/-- Non-strict SQLite TEXT comparison. -/
def strLe (s t : String) : Bool := !(strLtb t.data s.data)

/-- Strict SQLite TEXT comparison on strings. -/
def strLt (s t : String) : Bool := strLtb s.data t.data

/-- Output shape of the external PDF extractor `parse_budget_pdf`
(out of scope per the spec; only its result shape matters here).
`quote_number` and `client_name` always carry their fallback values
`"S/N"` / `"Cliente"`, the other fields may be absent. -/
structure Extracted where
  quote_number : String
  issue_date : Option String
  seller : Option String
  client_name : String
  total : Option String
deriving DecidableEq

/-- Parse outcome of the `events_json` text column: `none` = NULL or
empty text, `some none` = non-empty text that is not valid JSON,
`some (some j)` = non-empty text parsing to `j`. -/
abbrev EventsCol := Option (Option Json)

/-- One row of the `quotes` table. List position models `rowid`
(AUTOINCREMENT) order. The `extracted_json` column is only ever written
as `json.dumps` of a `parse_budget_pdf` result, so it is carried in
structured form. -/
structure QuoteRow where
  vendor_id : String
  quote_number : String
  pdf_sha256 : String
  extracted : Option Extracted
  events : EventsCol
  created_at : String
  summary : Option String
  notes : Option String
  status : Option String
  updated_at : Option String
deriving DecidableEq

/-- Row predicate of `db.find_existing`: same vendor and a match on
either the quote number or the content hash. -/
def quoteMatches (v qn h : String) (r : QuoteRow) : Bool :=
  r.vendor_id == v && (r.quote_number == qn || r.pdf_sha256 == h)

/-- Record returned by `db.find_existing`. The source re-parses the
stored `extracted_json` / `events_json` text; we carry the stored parse
outcomes unchanged (this code only ever writes valid JSON there). -/
structure ExistingRecord where
  quote_number : String
  pdf_sha256 : String
  extracted : Option Extracted
  events_created : EventsCol
  created_at : String
deriving DecidableEq

/-- Projection of a quotes row to the dict `db.find_existing` returns. -/
def QuoteRow.toExisting (r : QuoteRow) : ExistingRecord :=
  { quote_number := r.quote_number
    pdf_sha256 := r.pdf_sha256
    extracted := r.extracted
    events_created := r.events
    created_at := r.created_at }

/-- Python `db.find_existing(vendor_id, quote_number, pdf_sha256)`:
the highest-id row of this vendor matching either key
(`ORDER BY id DESC LIMIT 1`), or `None`. -/
def find_existing (db : List QuoteRow) (v qn h : String) : Option ExistingRecord :=
  ((db.filter (quoteMatches v qn h)).getLast?).map QuoteRow.toExisting

/-- Python `db.insert_quote`: appends a fresh row; `status` takes the
SQL column default `'pendiente'`, `events_json` stores the serialized
list of created-event records. -/
def insert_quote (db : List QuoteRow) (v qn h : String) (extracted : Extracted)
    (events_created : List Json) (now : String) : List QuoteRow :=
  db ++ [{ vendor_id := v
           quote_number := qn
           pdf_sha256 := h
           extracted := some extracted
           events := some (some (.arr events_created))
           created_at := now
           summary := none
           notes := none
           status := some "pendiente"
           updated_at := none }]

/-- Response of the `/upload` handler, after authentication and PDF
parsing. -/
inductive UploadStatus where
  | noCreds
  | duplicateBlocked (existing : ExistingRecord)
  | ok (events_created : List Json)
deriving DecidableEq

/-- Result of one `/upload` call: the table afterwards, the calendar
events this call actually created remotely, and the HTTP-level
response. -/
structure UploadResult where
  db : List QuoteRow
  createdRemoteEvents : List Json
  response : UploadStatus
deriving DecidableEq

/-- Core of `main.api_upload_pdf` after upload, hashing and parsing:
credentials check, dedup via `find_existing`, then
`create_followup_events` (whose remote responses are the environment
parameter `newEvents`) and `insert_quote`. -/
def api_upload_pdf (db : List QuoteRow) (v : String) (hasCreds : Bool)
    (extracted : Extracted) (pdf_sha256 : String) (newEvents : List Json)
    (now : String) : UploadResult :=
  if !hasCreds then
    { db := db, createdRemoteEvents := [], response := .noCreds }
  else
    let qn := extracted.quote_number
    match find_existing db v qn pdf_sha256 with
    | some ex =>
        { db := db, createdRemoteEvents := [], response := .duplicateBlocked ex }
    | none =>
        { db := insert_quote db v qn pdf_sha256 extracted newEvents now
          createdRemoteEvents := newEvents
          response := .ok newEvents }

theorem filter_ne_nil_of_mem {α : Type} {p : α → Bool} {l : List α} {x : α}
    (hx : x ∈ l) (hpx : p x = true) : l.filter p ≠ [] := by
  intro hnil
  have := List.mem_filter.mpr ⟨hx, hpx⟩
  rw [hnil] at this
  exact (List.not_mem_nil x) this

/-- Claim C1: if an already-stored quote of the same vendor matches the
incoming submission on quote number or on content hash, ingestion is a
no-op: no remote events are created, the table is unchanged, and the
response carries the stored record (its current events list included)
as projected by `find_existing`. -/
theorem c1_duplicate_ingestion_noop (db : List QuoteRow) (v : String)
    (extracted : Extracted) (pdf_sha256 : String) (newEvents : List Json)
    (now : String)
    (hmatch : ∃ r ∈ db, r.vendor_id = v ∧
      (r.quote_number = extracted.quote_number ∨ r.pdf_sha256 = pdf_sha256)) :
    ∃ r : QuoteRow,
      (db.filter (quoteMatches v extracted.quote_number pdf_sha256)).getLast? = some r ∧
      api_upload_pdf db v true extracted pdf_sha256 newEvents now =
        { db := db, createdRemoteEvents := [],
          response := .duplicateBlocked r.toExisting } := by
  obtain ⟨r0, hr0, hv, hkey⟩ := hmatch
  have hp : quoteMatches v extracted.quote_number pdf_sha256 r0 = true := by
    simp [quoteMatches, hv]
    rcases hkey with h | h
    · exact Or.inl h
    · exact Or.inr h
  have hne : db.filter (quoteMatches v extracted.quote_number pdf_sha256) ≠ [] :=
    filter_ne_nil_of_mem hr0 hp
  obtain ⟨r, hr⟩ := Option.isSome_iff_exists.mp
    ((List.getLast?_isSome).mpr hne)
  refine ⟨r, hr, ?_⟩
  simp only [api_upload_pdf, find_existing, hr, Option.map_some', Bool.not_true,
    Bool.false_eq_true, if_false]

/-- Concrete stored row used by the C1 witness. -/
def c1Row : QuoteRow :=
  { vendor_id := "v@x"
    quote_number := "0001-00000001"
    pdf_sha256 := "H1"
    extracted := none
    events := some (some (.arr [Json.str "E1"]))
    created_at := "2026-01-01T00:00:00"
    summary := none
    notes := none
    status := some "pendiente"
    updated_at := none }

/-- Concrete extractor output used by the C1 witness: same quote number
as the stored row, different content hash. -/
def c1Extracted : Extracted :=
  { quote_number := "0001-00000001"
    issue_date := none
    seller := none
    client_name := "Cliente"
    total := none }

/-- Witness for C1: the hypotheses of `c1_duplicate_ingestion_noop`
hold at `c1Row` / `c1Extracted` and the theorem applies there. -/
theorem c1_witness :
    (∃ r ∈ [c1Row], r.vendor_id = "v@x" ∧
        (r.quote_number = c1Extracted.quote_number ∨ r.pdf_sha256 = "H2")) ∧
    ∃ r : QuoteRow,
      (([c1Row]).filter
          (quoteMatches "v@x" c1Extracted.quote_number "H2")).getLast? = some r ∧
      api_upload_pdf [c1Row] "v@x" true c1Extracted "H2" [Json.str "E9"]
          "2026-01-02T00:00:00" =
        { db := [c1Row], createdRemoteEvents := [],
          response := .duplicateBlocked r.toExisting } :=
  ⟨⟨c1Row, List.mem_singleton.mpr rfl, rfl, Or.inl rfl⟩,
    c1_duplicate_ingestion_noop [c1Row] "v@x" c1Extracted "H2" [Json.str "E9"]
      "2026-01-02T00:00:00"
      ⟨c1Row, List.mem_singleton.mpr rfl, rfl, Or.inl rfl⟩⟩

/-- Outcome of one remote `events().delete(...)` call, as observed by
`calendar_service.delete_events`: success, an `HttpError` carrying the
response status (`getattr(e.resp, "status", None)`), or any other
exception. -/
inductive DelOutcome where
  | success
  | httpError (status : Option Nat) (msg : String)
  | otherExn (msg : String)
deriving DecidableEq

/-- One entry of the `failed` list of `delete_events`. -/
structure FailedDelete (α : Type) where
  event_id : α
  status : Option Nat
  error : String
deriving DecidableEq

/-- Result shape of `calendar_service.delete_events`. -/
structure DeleteResult (α : Type) where
  deleted : List α
  failed : List (FailedDelete α)
deriving DecidableEq

/-- Whether a per-event outcome is recorded in `deleted`: plain success
or an `HttpError` with status 404 (remote already has no such event). -/
def delOk : DelOutcome → Bool
  | .success => true
  | .httpError (some 404) _ => true
  | _ => false

/-- The `failed` entry built for a non-ok outcome. -/
def failEntry {α : Type} (eid : α) : DelOutcome → FailedDelete α
  | .httpError st m => { event_id := eid, status := st, error := m }
  | .otherExn m => { event_id := eid, status := none, error := m }
  | .success => { event_id := eid, status := none, error := "" }

/-- Python `calendar_service.delete_events(creds, event_ids, ...)`:
deletes each id independently against the remote environment `remote`,
treating 404 as success and accumulating any other error into `failed`
without stopping. -/
def delete_events {α : Type} (remote : α → DelOutcome) :
    List α → DeleteResult α
  | [] => { deleted := [], failed := [] }
  | eid :: rest =>
    let r := delete_events remote rest
    match remote eid with
    | .success => { deleted := eid :: r.deleted, failed := r.failed }
    | .httpError (some 404) _ => { deleted := eid :: r.deleted, failed := r.failed }
    | .httpError st m =>
        { deleted := r.deleted, failed := ⟨eid, st, m⟩ :: r.failed }
    | .otherExn m =>
        { deleted := r.deleted, failed := ⟨eid, none, m⟩ :: r.failed }

theorem delete_events_deleted_eq {α : Type} (remote : α → DelOutcome) :
    ∀ ids : List α,
      (delete_events remote ids).deleted = ids.filter (fun e => delOk (remote e))
  | [] => rfl
  | eid :: rest => by
      have ih := delete_events_deleted_eq remote rest
      rcases h : remote eid with _ | ⟨st, m⟩ | m
      · simp [delete_events, h, ih, List.filter_cons, delOk]
      · rcases st with _ | n
        · simp [delete_events, h, ih, List.filter_cons, delOk]
        · by_cases h4 : n = 404
          · subst h4; simp [delete_events, h, ih, List.filter_cons, delOk]
          · simp [delete_events, h, ih, List.filter_cons, delOk, h4]
      · simp [delete_events, h, ih, List.filter_cons, delOk]

theorem delete_events_failed_eq {α : Type} (remote : α → DelOutcome) :
    ∀ ids : List α,
      (delete_events remote ids).failed =
        (ids.filter (fun e => !delOk (remote e))).map
          (fun e => failEntry e (remote e))
  | [] => rfl
  | eid :: rest => by
      have ih := delete_events_failed_eq remote rest
      rcases h : remote eid with _ | ⟨st, m⟩ | m
      · simp [delete_events, h, ih, List.filter_cons, delOk]
      · rcases st with _ | n
        · simp [delete_events, h, ih, List.filter_cons, delOk, failEntry]
        · by_cases h4 : n = 404
          · subst h4; simp [delete_events, h, ih, List.filter_cons, delOk]
          · simp [delete_events, h, ih, List.filter_cons, delOk, h4, failEntry]
      · simp [delete_events, h, ih, List.filter_cons, delOk, failEntry]

theorem delete_events_failed_ids {α : Type} (remote : α → DelOutcome)
    (ids : List α) :
    (delete_events remote ids).failed.map (fun f => f.event_id) =
      ids.filter (fun e => !delOk (remote e)) := by
  rw [delete_events_failed_eq, List.map_map]
  have hcomp : ((fun f : FailedDelete α => f.event_id) ∘ fun e => failEntry e (remote e)) =
      fun e : α => e := by
    funext e
    rcases h : remote e with _ | ⟨st, m⟩ | m <;>
      simp [Function.comp, failEntry, h]
  rw [hcomp]
  simp

/-- Claim C4: `delete_events` handles each id independently: a 404
(not-found) outcome lands the id in `deleted` like a success; any other
error produces a `failed` entry (with that id) without aborting the
rest; every input id ends up in exactly one of the two lists. The two
list equalities give the full characterization: `deleted` is exactly the
ids whose outcome is success-or-404, in order, and `failed` is exactly
the entries for the others, in order. -/
theorem c4_delete_events_partition {α : Type} [DecidableEq α]
    (remote : α → DelOutcome) (ids : List α) :
    (delete_events remote ids).deleted = ids.filter (fun e => delOk (remote e)) ∧
    (delete_events remote ids).failed =
      (ids.filter (fun e => !delOk (remote e))).map
        (fun e => failEntry e (remote e)) ∧
    (∀ eid ∈ ids, ∀ m, remote eid = .httpError (some 404) m →
      eid ∈ (delete_events remote ids).deleted ∧
      eid ∉ (delete_events remote ids).failed.map (fun f => f.event_id)) ∧
    (∀ eid ∈ ids, delOk (remote eid) = false →
      eid ∈ (delete_events remote ids).failed.map (fun f => f.event_id) ∧
      eid ∉ (delete_events remote ids).deleted) ∧
    (∀ eid ∈ ids,
      (eid ∈ (delete_events remote ids).deleted ∧
        eid ∉ (delete_events remote ids).failed.map (fun f => f.event_id)) ∨
      (eid ∈ (delete_events remote ids).failed.map (fun f => f.event_id) ∧
        eid ∉ (delete_events remote ids).deleted)) := by
  refine ⟨delete_events_deleted_eq remote ids, delete_events_failed_eq remote ids,
    ?_, ?_, ?_⟩
  · intro eid hmem m h404
    rw [delete_events_deleted_eq, delete_events_failed_ids]
    constructor
    · exact List.mem_filter.mpr ⟨hmem, by simp [h404, delOk]⟩
    · intro hc
      have := (List.mem_filter.mp hc).2
      simp [h404, delOk] at this
  · intro eid hmem hbad
    rw [delete_events_deleted_eq, delete_events_failed_ids]
    constructor
    · exact List.mem_filter.mpr ⟨hmem, by simp [hbad]⟩
    · intro hc
      have := (List.mem_filter.mp hc).2
      simp [hbad] at this
  · intro eid hmem
    rw [delete_events_deleted_eq, delete_events_failed_ids]
    by_cases hok : delOk (remote eid) = true
    · left
      refine ⟨List.mem_filter.mpr ⟨hmem, hok⟩, ?_⟩
      intro hc
      have := (List.mem_filter.mp hc).2
      simp [hok] at this
    · right
      refine ⟨List.mem_filter.mpr ⟨hmem, by simp at hok; simp [hok]⟩, ?_⟩
      intro hc
      have := (List.mem_filter.mp hc).2
      simp at hok
      simp [hok] at this

/-- Remote environment used by the C4 witness: `"A"` deletes fine,
`"B"` is already gone (404), `"C"` fails with a 500. -/
def c4Remote : String → DelOutcome := fun eid =>
  if eid = "A" then .success
  else if eid = "B" then .httpError (some 404) "not found"
  else .httpError (some 500) "backend error"

/-- Witness for C4 on a concrete three-id batch: the 404 id lands in
`deleted`, the 500 id in `failed`, and the batch is not aborted. -/
theorem c4_witness :
    ("B" ∈ (["A", "B", "C"] : List String) ∧
      c4Remote "B" = .httpError (some 404) "not found") ∧
    "B" ∈ (delete_events c4Remote ["A", "B", "C"]).deleted ∧
    "B" ∉ (delete_events c4Remote ["A", "B", "C"]).failed.map
      (fun f => f.event_id) :=
  ⟨⟨by decide, by decide⟩,
    (c4_delete_events_partition c4Remote ["A", "B", "C"]).2.2.1 "B"
      (by decide) "not found" (by decide)⟩

/-- Python `db.update_notes`: sets summary, notes, status and
updated_at on the rows of this vendor and quote number (at most one,
by the UNIQUE constraint). -/
def update_notes (db : List QuoteRow) (v qn summary notes status now : String) :
    List QuoteRow :=
  db.map fun r =>
    if r.vendor_id == v && r.quote_number == qn then
      { r with summary := some summary, notes := some notes,
               status := some status, updated_at := some now }
    else r

/-- Python extraction of one id inside `db.get_event_ids`:
`eid = e.get("event_id") or e.get("id"); if eid: ids.append(eid)` for a
dict entry `e`; non-dict entries are skipped. -/
def extractEventId (e : Json) : Option Json :=
  match e with
  | .obj _ =>
      let a := (e.get? "event_id").getD .null
      let b := (e.get? "id").getD .null
      let eid := if a.truthy then a else b
      if eid.truthy then some eid else none
  | _ => none

/-- Python `db.get_event_ids(vendor_id, quote_number)`: reads the
`events_json` of the last row for that quote. The `try/except` only
covers `json.loads`; the subsequent `for e in events` raises an
uncaught `TypeError` (modelled `Except.error ()`) when the parsed value
is a number, boolean or `null`. Iterating a parsed dict or string
yields strings, none of which is a dict, so those give `[]`. -/
def get_event_ids (db : List QuoteRow) (v qn : String) :
    Except Unit (List Json) :=
  match (db.filter fun r => r.vendor_id == v && r.quote_number == qn).getLast? with
  | none => .ok []
  | some r =>
    match r.events with
    | none => .ok []
    | some none => .ok []
    | some (some j) =>
      match j with
      | .arr es => .ok (es.filterMap extractEventId)
      | .obj _ => .ok []
      | .str _ => .ok []
      | .null => .error ()
      | .bool _ => .error ()
      | .num _ => .error ()

/-- Python `db.clear_events`: stores the text `"[]"` (which parses to
the empty array) in `events_json` for that quote. -/
def clear_events (db : List QuoteRow) (v qn : String) : List QuoteRow :=
  db.map fun r =>
    if r.vendor_id == v && r.quote_number == qn then
      { r with events := some (some (.arr [])) }
    else r

/-- Message shown by `/ui/quote/save` (success or error redirect). -/
inductive SaveMsg where
  | savedNonTerminal
  | savedNoEvents
  | noCreds
  | cancelFailed
  | savedCleared
deriving DecidableEq

/-- Result of one `/ui/quote/save` call: the quotes table afterwards,
the event ids this call asked the remote side to delete, and the
redirect message. -/
structure SaveResult where
  db : List QuoteRow
  cancelRequested : List Json
  msg : SaveMsg
deriving DecidableEq

/-- Core of `main.ui_quote_save` after authentication: persist the edit
via `update_notes`, then, when the new status normalizes to `cerrada`
or `perdida`, read the stored event ids and reconcile: clear directly
when none are stored, stop with an error when credentials are missing
or when `delete_events` reports any failure (leaving `events_json`
untouched), and clear the list only on full success. -/
def ui_quote_save (db : List QuoteRow) (v qn summary notes status : String)
    (hasCreds : Bool) (remote : Json → DelOutcome) (now : String) :
    Except Unit SaveResult :=
  let db1 := update_notes db v qn summary notes status now
  let new_s := normStatus status
  if new_s == "cerrada" || new_s == "perdida" then
    match get_event_ids db1 v qn with
    | .error e => .error e
    | .ok event_ids =>
      if event_ids.isEmpty then
        .ok { db := clear_events db1 v qn, cancelRequested := [],
              msg := .savedNoEvents }
      else if !hasCreds then
        .ok { db := db1, cancelRequested := [], msg := .noCreds }
      else if !(delete_events remote event_ids).failed.isEmpty then
        .ok { db := db1, cancelRequested := event_ids, msg := .cancelFailed }
      else
        .ok { db := clear_events db1 v qn, cancelRequested := event_ids,
              msg := .savedCleared }
  else
    .ok { db := db1, cancelRequested := [], msg := .savedNonTerminal }

theorem update_notes_events (db : List QuoteRow) (v qn summary notes status now : String) :
    (update_notes db v qn summary notes status now).map (fun r => r.events) =
      db.map (fun r => r.events) := by
  unfold update_notes
  rw [List.map_map]
  apply List.map_congr_left
  intro r _
  by_cases h : (r.vendor_id == v && r.quote_number == qn) = true <;>
    simp [Function.comp, h]

theorem update_notes_status (db : List QuoteRow) (v qn summary notes status now : String) :
    ∀ r ∈ update_notes db v qn summary notes status now,
      r.vendor_id = v → r.quote_number = qn → r.status = some status := by
  intro r hr hv hq
  unfold update_notes at hr
  obtain ⟨r0, _, hmk⟩ := List.mem_map.mp hr
  by_cases h : (r0.vendor_id == v && r0.quote_number == qn) = true
  · rw [if_pos h] at hmk
    rw [← hmk]
  · rw [if_neg h] at hmk
    subst hmk
    simp only [Bool.and_eq_true, beq_iff_eq] at h
    exact absurd ⟨hv, hq⟩ h

theorem clear_events_cleared (db : List QuoteRow) (v qn : String) :
    ∀ r ∈ clear_events db v qn,
      r.vendor_id = v → r.quote_number = qn →
        r.events = some (some (.arr [])) := by
  intro r hr hv hq
  unfold clear_events at hr
  obtain ⟨r0, _, hmk⟩ := List.mem_map.mp hr
  by_cases h : (r0.vendor_id == v && r0.quote_number == qn) = true
  · rw [if_pos h] at hmk
    rw [← hmk]
  · rw [if_neg h] at hmk
    subst hmk
    simp only [Bool.and_eq_true, beq_iff_eq] at h
    exact absurd ⟨hv, hq⟩ h

instance {ε α : Type} [DecidableEq ε] [DecidableEq α] :
    DecidableEq (Except ε α) := fun a b =>
  match a, b with
  | .ok x, .ok y =>
      if h : x = y then .isTrue (by rw [h]) else
        .isFalse (fun hh => by injection hh with e; exact absurd e h)
  | .error x, .error y =>
      if h : x = y then .isTrue (by rw [h]) else
        .isFalse (fun hh => by injection hh with e; exact absurd e h)
  | .ok _, .error _ => .isFalse (fun h => Except.noConfusion h)
  | .error _, .ok _ => .isFalse (fun h => Except.noConfusion h)

theorem mem_of_getLast? {α : Type} {l : List α} {a : α}
    (h : l.getLast? = some a) : a ∈ l := by
  obtain ⟨ys, rfl⟩ := List.getLast?_eq_some_iff.mp h
  simp

theorem get_event_ids_clear_events (db : List QuoteRow) (v qn : String) :
    get_event_ids (clear_events db v qn) v qn = .ok [] := by
  unfold get_event_ids clear_events
  rw [List.filter_map]
  have hp : ((fun r : QuoteRow => r.vendor_id == v && r.quote_number == qn) ∘
      (fun r : QuoteRow =>
        if r.vendor_id == v && r.quote_number == qn then
          { r with events := some (some (.arr [])) }
        else r)) =
      fun r : QuoteRow => r.vendor_id == v && r.quote_number == qn := by
    funext r
    by_cases h : (r.vendor_id == v && r.quote_number == qn) = true <;>
      simp [Function.comp, h]
  rw [hp, List.getLast?_map]
  cases hL : (db.filter fun r => r.vendor_id == v && r.quote_number == qn).getLast? with
  | none => rfl
  | some r =>
      have hmem := mem_of_getLast? hL
      have hpr := (List.mem_filter.mp hmem).2
      have hpr2 : r.vendor_id = v ∧ r.quote_number = qn := by simpa using hpr
      simp [hpr2.1, hpr2.2, List.filterMap]

/-- Claim C2: a status edit into `cerrada`/`perdida` whose remote
cancellation reports a (non-404) failure still persists the new status
(the edit is not rolled back), leaves the stored `events_json` of every
row untouched (not cleared, not half-cleared), and redirects with the
reconciliation-failed error message. -/
theorem c2_terminal_edit_failure_preserves_events
    (db : List QuoteRow) (v qn summary notes status now : String)
    (remote : Json → DelOutcome) (ids : List Json)
    (hterm : normStatus status = "cerrada" ∨ normStatus status = "perdida")
    (hids : get_event_ids (update_notes db v qn summary notes status now) v qn =
      .ok ids)
    (hne : ids ≠ [])
    (hfail : ∃ eid ∈ ids, delOk (remote eid) = false) :
    ui_quote_save db v qn summary notes status true remote now =
      .ok { db := update_notes db v qn summary notes status now,
            cancelRequested := ids, msg := .cancelFailed } ∧
    (∀ r ∈ update_notes db v qn summary notes status now,
      r.vendor_id = v → r.quote_number = qn → r.status = some status) ∧
    (update_notes db v qn summary notes status now).map (fun r => r.events) =
      db.map (fun r => r.events) := by
  refine ⟨?_, update_notes_status db v qn summary notes status now,
    update_notes_events db v qn summary notes status now⟩
  have hcond : (normStatus status == "cerrada" || normStatus status == "perdida") =
      true := by
    rcases hterm with h | h <;> simp [h]
  have hfailedne : (delete_events remote ids).failed ≠ [] := by
    obtain ⟨eid, hmem, hbad⟩ := hfail
    intro hnil
    have h1 := delete_events_failed_ids remote ids
    rw [hnil] at h1
    have h2 : eid ∈ ids.filter (fun e => !delOk (remote e)) :=
      List.mem_filter.mpr ⟨hmem, by simp [hbad]⟩
    rw [← h1] at h2
    simp at h2
  have hemp : ids.isEmpty = false := by
    cases ids with
    | nil => exact absurd rfl hne
    | cons a l => rfl
  have hfemp : (delete_events remote ids).failed.isEmpty = false := by
    cases hfl : (delete_events remote ids).failed with
    | nil => exact absurd hfl hfailedne
    | cons a l => rfl
  simp only [ui_quote_save, hcond, if_true, hids, hemp, hfemp]
  simp

/-- Stored follow-up event records used by the C2 witness. -/
def c2Event1 : Json := .obj [("tag", .str "48h"), ("event_id", .str "A1")]

/-- Second stored follow-up event record used by the C2 witness. -/
def c2Event2 : Json := .obj [("tag", .str "72h"), ("event_id", .str "A2")]

/-- Stored quote row used by the C2 witness. -/
def c2Row : QuoteRow :=
  { vendor_id := "v@x"
    quote_number := "0001-00000003"
    pdf_sha256 := "H3"
    extracted := none
    events := some (some (.arr [c2Event1, c2Event2]))
    created_at := "t0"
    summary := none
    notes := none
    status := some "pendiente"
    updated_at := none }

/-- Remote environment for the C2 witness: every delete call raises a
non-HTTP exception. -/
def c2Remote : Json → DelOutcome := fun _ => .otherExn "socket timeout"

/-- Witness for C2 at a concrete one-quote table, status edit to
`perdida` with both cancellations failing. -/
theorem c2_witness :
    (normStatus "perdida" = "cerrada" ∨ normStatus "perdida" = "perdida") ∧
    get_event_ids (update_notes [c2Row] "v@x" "0001-00000003" "s" "n" "perdida" "t1")
        "v@x" "0001-00000003" = .ok [Json.str "A1", Json.str "A2"] ∧
    ([Json.str "A1", Json.str "A2"] : List Json) ≠ [] ∧
    (∃ eid ∈ [Json.str "A1", Json.str "A2"], delOk (c2Remote eid) = false) ∧
    ui_quote_save [c2Row] "v@x" "0001-00000003" "s" "n" "perdida" true c2Remote "t1" =
      .ok { db := update_notes [c2Row] "v@x" "0001-00000003" "s" "n" "perdida" "t1",
            cancelRequested := [Json.str "A1", Json.str "A2"],
            msg := .cancelFailed } :=
  ⟨Or.inr (by decide), by decide, by decide, ⟨Json.str "A1", by decide, by decide⟩,
    (c2_terminal_edit_failure_preserves_events [c2Row] "v@x" "0001-00000003"
      "s" "n" "perdida" "t1" c2Remote [Json.str "A1", Json.str "A2"]
      (Or.inr (by decide)) (by decide) (by decide)
      ⟨Json.str "A1", by decide, by decide⟩).1⟩

/-- Claim C3: a status edit into `cerrada`/`perdida` cancel-requests
every stored event reference, and when every cancellation succeeds (or
none were stored) the stored event list is empty afterwards and the
transition redirects with a success message. -/
theorem c3_terminal_edit_success_clears_events
    (db : List QuoteRow) (v qn summary notes status now : String)
    (remote : Json → DelOutcome) (ids : List Json)
    (hterm : normStatus status = "cerrada" ∨ normStatus status = "perdida")
    (hids : get_event_ids (update_notes db v qn summary notes status now) v qn =
      .ok ids)
    (hok : ∀ eid ∈ ids, delOk (remote eid) = true) :
    ∃ out : SaveResult,
      ui_quote_save db v qn summary notes status true remote now = .ok out ∧
      out.cancelRequested = ids ∧
      (out.msg = .savedNoEvents ∨ out.msg = .savedCleared) ∧
      (∀ r ∈ out.db, r.vendor_id = v → r.quote_number = qn →
        r.events = some (some (.arr []))) ∧
      get_event_ids out.db v qn = .ok [] := by
  have hcond : (normStatus status == "cerrada" || normStatus status == "perdida") =
      true := by
    rcases hterm with h | h <;> simp [h]
  by_cases hnil : ids = []
  · subst hnil
    refine ⟨{ db := clear_events (update_notes db v qn summary notes status now) v qn,
              cancelRequested := [], msg := .savedNoEvents }, ?_, rfl, Or.inl rfl,
      clear_events_cleared _ v qn, get_event_ids_clear_events _ v qn⟩
    simp only [ui_quote_save, hcond, if_true, hids]
    simp
  · have hfl : (delete_events remote ids).failed = [] := by
      rw [delete_events_failed_eq]
      have hfe : ids.filter (fun e => !delOk (remote e)) = [] :=
        List.filter_eq_nil_iff.mpr (fun a ha => by simp [hok a ha])
      rw [hfe]
      rfl
    have hemp : ids.isEmpty = false := by
      cases ids with
      | nil => exact absurd rfl hnil
      | cons a l => rfl
    refine ⟨{ db := clear_events (update_notes db v qn summary notes status now) v qn,
              cancelRequested := ids, msg := .savedCleared }, ?_, rfl, Or.inr rfl,
      clear_events_cleared _ v qn, get_event_ids_clear_events _ v qn⟩
    simp only [ui_quote_save, hcond, if_true, hids, hemp, hfl]
    simp

/-- Stored quote row used by the C3 witness. -/
def c3Row : QuoteRow :=
  { vendor_id := "v@x"
    quote_number := "0001-00000004"
    pdf_sha256 := "H4"
    extracted := none
    events := some (some (.arr [.obj [("event_id", .str "B1")],
      .obj [("event_id", .str "B2")]]))
    created_at := "t0"
    summary := none
    notes := none
    status := some "interesado"
    updated_at := none }

/-- Witness for C3 at a concrete one-quote table, status edit to
`cerrada` with both cancellations succeeding. -/
theorem c3_witness :
    (normStatus "cerrada" = "cerrada" ∨ normStatus "cerrada" = "perdida") ∧
    get_event_ids (update_notes [c3Row] "v@x" "0001-00000004" "s" "n" "cerrada" "t1")
        "v@x" "0001-00000004" = .ok [Json.str "B1", Json.str "B2"] ∧
    (∀ eid ∈ ([Json.str "B1", Json.str "B2"] : List Json),
      delOk ((fun _ => DelOutcome.success) eid) = true) ∧
    ∃ out : SaveResult,
      ui_quote_save [c3Row] "v@x" "0001-00000004" "s" "n" "cerrada" true
          (fun _ => DelOutcome.success) "t1" = .ok out ∧
      out.cancelRequested = [Json.str "B1", Json.str "B2"] ∧
      (out.msg = .savedNoEvents ∨ out.msg = .savedCleared) ∧
      (∀ r ∈ out.db, r.vendor_id = "v@x" → r.quote_number = "0001-00000004" →
        r.events = some (some (.arr []))) ∧
      get_event_ids out.db "v@x" "0001-00000004" = .ok [] :=
  ⟨Or.inl (by decide), by decide, by decide,
    c3_terminal_edit_success_clears_events [c3Row] "v@x" "0001-00000004"
      "s" "n" "cerrada" "t1" (fun _ => DelOutcome.success)
      [Json.str "B1", Json.str "B2"] (Or.inl (by decide)) (by decide) (by decide)⟩

/-- One request-level transition of the `quotes` table: a PDF upload
(`api_upload_pdf`) or a quote edit (`ui_quote_save`), under an
arbitrary environment (credentials, remote calendar responses, clock).
-/
inductive QuotesStep : List QuoteRow → List QuoteRow → Prop where
  | upload (db : List QuoteRow) (v : String) (hasCreds : Bool)
      (extracted : Extracted) (pdf_sha256 : String) (newEvents : List Json)
      (now : String) :
      QuotesStep db (api_upload_pdf db v hasCreds extracted pdf_sha256 newEvents now).db
  | save (db : List QuoteRow) (v qn summary notes status : String)
      (hasCreds : Bool) (remote : Json → DelOutcome) (now : String)
      (out : SaveResult)
      (hout : ui_quote_save db v qn summary notes status hasCreds remote now =
        .ok out) :
      QuotesStep db out.db

/-- Quote-table states reachable from the empty table through uploads
and edits. -/
def QuotesReachable (db : List QuoteRow) : Prop :=
  Relation.ReflTransGen QuotesStep [] db

/-- First stored follow-up record of the C5 counterexample. -/
def c5Event1 : Json := .obj [("tag", .str "48h"), ("event_id", .str "E1")]

/-- Second stored follow-up record of the C5 counterexample. -/
def c5Event2 : Json := .obj [("tag", .str "72h"), ("event_id", .str "E2")]

/-- Extractor output of the C5 counterexample upload. -/
def c5Extracted : Extracted :=
  { quote_number := "0001-00000002"
    issue_date := none
    seller := none
    client_name := "Cliente"
    total := none }

/-- Table after the C5 counterexample upload. -/
def c5Db1 : List QuoteRow :=
  [{ vendor_id := "v@x"
     quote_number := "0001-00000002"
     pdf_sha256 := "H5"
     extracted := some c5Extracted
     events := some (some (.arr [c5Event1, c5Event2]))
     created_at := "t1"
     summary := none
     notes := none
     status := some "pendiente"
     updated_at := none }]

/-- Remote environment of the C5 counterexample edit: every delete
fails with HTTP 500. -/
def c5Remote : Json → DelOutcome := fun _ => .httpError (some 500) "backend error"

/-- The single row of the reachable state violating the claimed
invariant: terminal status together with a non-empty events list. -/
def c5BadRow : QuoteRow :=
  { vendor_id := "v@x"
    quote_number := "0001-00000002"
    pdf_sha256 := "H5"
    extracted := some c5Extracted
    events := some (some (.arr [c5Event1, c5Event2]))
    created_at := "t1"
    summary := some "s"
    notes := some "n"
    status := some "cerrada"
    updated_at := some "t2" }

/-- The reachable counterexample state for C5. -/
def c5BadDb : List QuoteRow := [c5BadRow]

/-- Save outcome of the C5 counterexample edit. -/
def c5Out : SaveResult :=
  { db := c5BadDb
    cancelRequested := [.str "E1", .str "E2"]
    msg := .cancelFailed }

/-- Counterexample to claim C5: after uploading a quote (two stored
event references) and then editing its status to `cerrada` while the
remote cancellations fail with HTTP 500, the reachable table holds a
record whose status is terminal and whose stored events list still
contains both references — so the claimed invariant does not hold for
all reachable states. -/
theorem c5_counterexample :
    QuotesReachable c5BadDb ∧
    c5BadRow ∈ c5BadDb ∧
    normStatus (c5BadRow.status.getD "pendiente") = "cerrada" ∧
    c5BadRow.events = some (some (.arr [c5Event1, c5Event2])) ∧
    get_event_ids c5BadDb c5BadRow.vendor_id c5BadRow.quote_number =
      .ok [.str "E1", .str "E2"] := by
  refine ⟨?_, List.mem_singleton.mpr rfl, by decide, rfl, by decide⟩
  have h1 : QuotesStep [] c5Db1 := by
    have e1 : (api_upload_pdf [] "v@x" true c5Extracted "H5" [c5Event1, c5Event2]
        "t1").db = c5Db1 := by decide
    have h := QuotesStep.upload [] "v@x" true c5Extracted "H5" [c5Event1, c5Event2]
      "t1"
    rw [e1] at h
    exact h
  have h2 : QuotesStep c5Db1 c5BadDb := by
    have e2 : ui_quote_save c5Db1 "v@x" "0001-00000002" "s" "n" "cerrada" true
        c5Remote "t2" = .ok c5Out := by decide
    exact QuotesStep.save c5Db1 "v@x" "0001-00000002" "s" "n" "cerrada" true
      c5Remote "t2" c5Out e2
  exact Relation.ReflTransGen.tail (Relation.ReflTransGen.single h1) h2

/-- Claim C5 amended: the invariant holds for every transition that
completes successfully — whenever a quote edit into a terminal status
reports success, the edited quote's stored events list is empty
afterwards; after a reported reconciliation failure (or missing
credentials) the terminal status coexists with the preserved event list
until a retry succeeds. -/
theorem c5_amended_success_clears
    (db : List QuoteRow) (v qn summary notes status now : String)
    (hasCreds : Bool) (remote : Json → DelOutcome) (out : SaveResult)
    (hout : ui_quote_save db v qn summary notes status hasCreds remote now =
      .ok out)
    (hterm : normStatus status = "cerrada" ∨ normStatus status = "perdida")
    (hsucc : out.msg = .savedNoEvents ∨ out.msg = .savedCleared) :
    ∀ r ∈ out.db, r.vendor_id = v → r.quote_number = qn →
      r.events = some (some (.arr [])) := by
  have hcond : (normStatus status == "cerrada" || normStatus status == "perdida") =
      true := by
    rcases hterm with h | h <;> simp [h]
  simp only [ui_quote_save, hcond, if_true] at hout
  cases hE : get_event_ids (update_notes db v qn summary notes status now) v qn with
  | error e => rw [hE] at hout; exact absurd hout (by simp)
  | ok ids =>
      rw [hE] at hout
      dsimp only at hout
      by_cases hemp : ids.isEmpty
      · rw [if_pos hemp] at hout
        injection hout with hout
        rw [← hout]
        exact clear_events_cleared _ v qn
      · rw [if_neg hemp] at hout
        cases hasCreds with
        | false =>
            simp only [Bool.not_false, if_true] at hout
            injection hout with hout
            rw [← hout] at hsucc
            rcases hsucc with h | h <;> exact absurd h (by simp)
        | true =>
            simp only [Bool.not_true, Bool.false_eq_true, if_false] at hout
            by_cases hfl : (delete_events remote ids).failed.isEmpty
            · rw [if_neg (by simp [hfl])] at hout
              injection hout with hout
              rw [← hout]
              exact clear_events_cleared _ v qn
            · rw [if_pos (by simp [hfl])] at hout
              injection hout with hout
              rw [← hout] at hsucc
              rcases hsucc with h | h <;> exact absurd h (by simp)

/-- Witness for the amended C5 at a concrete successful terminal edit.
-/
theorem c5_amended_witness :
    (∃ out : SaveResult,
      ui_quote_save c5Db1 "v@x" "0001-00000002" "s" "n" "perdida" true
          (fun _ => DelOutcome.success) "t2" = .ok out ∧
      (normStatus "perdida" = "cerrada" ∨ normStatus "perdida" = "perdida") ∧
      (out.msg = .savedNoEvents ∨ out.msg = .savedCleared) ∧
      (∀ r ∈ out.db, r.vendor_id = "v@x" → r.quote_number = "0001-00000002" →
        r.events = some (some (.arr [])))) := by
  refine ⟨{ db := clear_events (update_notes c5Db1 "v@x" "0001-00000002" "s" "n"
              "perdida" "t2") "v@x" "0001-00000002",
            cancelRequested := [.str "E1", .str "E2"], msg := .savedCleared },
    by decide, Or.inr (by decide), Or.inr rfl, ?_⟩
  exact c5_amended_success_clears c5Db1 "v@x" "0001-00000002" "s" "n" "perdida"
    "t2" true (fun _ => DelOutcome.success) _ (by decide) (Or.inr (by decide))
    (Or.inr rfl)

/-- Python `str.strip()` (whitespace at both ends), character-level. -/
def stripStr (s : String) : String :=
  ⟨((s.data.dropWhile isSpaceChar).reverse.dropWhile isSpaceChar).reverse⟩

/-- Result of `calendar_service.create_postventa_event`: the remote
response's `id` and `htmlLink` fields (either may be missing). -/
structure PostEvent where
  event_id : Option String
  htmlLink : Option String
deriving DecidableEq

/-- One row of the `postventas` table (`id` is the AUTOINCREMENT
primary key). -/
structure PostventaRow where
  id : Nat
  vendor_id : String
  client_name : String
  phone : Option String
  sale_date : Option String
  postventa_date : String
  type_ : Option String
  notes : Option String
  status : Option String
  event_id : Option String
  htmlLink : Option String
  created_at : String
  quote_number : Option String
deriving DecidableEq

/-- Python `db.insert_postventa`: appends a fresh row with status
`pendiente`, `type_ or ""` / `notes or ""`, and the event reference
fields taken from `(event or {}).get(...)`; returns the new rowid. -/
def insert_postventa (pdb : List PostventaRow) (v client_name : String)
    (phone sale_date : Option String) (postventa_date : String)
    (type_ notes : Option String) (event : Option PostEvent)
    (quote_number : Option String) (now : String) :
    List PostventaRow × Nat :=
  let newId := pdb.length + 1
  (pdb ++ [{ id := newId
             vendor_id := v
             client_name := client_name
             phone := phone
             sale_date := sale_date
             postventa_date := postventa_date
             type_ := some (type_.getD "")
             notes := some (notes.getD "")
             status := some "pendiente"
             event_id := event.bind (fun e => e.event_id)
             htmlLink := event.bind (fun e => e.htmlLink)
             created_at := now
             quote_number := quote_number }], newId)

/-- Python `db.get_postventa_detail`: the row of this vendor with this
id (the primary key makes it unique). -/
def get_postventa_detail (pdb : List PostventaRow) (v : String) (pid : Nat) :
    Option PostventaRow :=
  pdb.find? (fun r => r.vendor_id == v && r.id == pid)

/-- Python `db.update_postventa_status`. -/
def update_postventa_status (pdb : List PostventaRow) (v : String) (pid : Nat)
    (status : String) : List PostventaRow :=
  pdb.map fun r =>
    if r.vendor_id == v && r.id == pid then { r with status := some status }
    else r

/-- Python `db.clear_postventa_event`: NULLs `event_id` and `htmlLink`.
-/
def clear_postventa_event (pdb : List PostventaRow) (v : String) (pid : Nat) :
    List PostventaRow :=
  pdb.map fun r =>
    if r.vendor_id == v && r.id == pid then
      { r with event_id := none, htmlLink := none }
    else r

/-- Redirect message of `/ui/postventa/cancel`. -/
inductive PvCancelMsg where
  | notFound
  | noCreds
  | cancelFailed
  | cancelled
deriving DecidableEq

/-- Result of one `/ui/postventa/cancel` call. -/
structure PvCancelResult where
  pdb : List PostventaRow
  msg : PvCancelMsg
deriving DecidableEq

/-- Core of `main.ui_postventa_cancel` after authentication: look up
the record; if a (truthy) remote event reference exists, require
credentials and cancel it, stopping with an error — without touching
the record — when `delete_events` reports a failure; only then persist
status `cancelada` and clear the event reference. -/
def ui_postventa_cancel (pdb : List PostventaRow) (v : String) (pid : Nat)
    (hasCreds : Bool) (remote : String → DelOutcome) : PvCancelResult :=
  match get_postventa_detail pdb v pid with
  | none => { pdb := pdb, msg := .notFound }
  | some pv =>
    let eid := pv.event_id.getD ""
    if eid != "" then
      if !hasCreds then { pdb := pdb, msg := .noCreds }
      else if !(delete_events remote [eid]).failed.isEmpty then
        { pdb := pdb, msg := .cancelFailed }
      else
        { pdb := clear_postventa_event
            (update_postventa_status pdb v pid "cancelada") v pid,
          msg := .cancelled }
    else
      { pdb := clear_postventa_event
          (update_postventa_status pdb v pid "cancelada") v pid,
        msg := .cancelled }

theorem postventa_cancel_final_state (pdb : List PostventaRow) (v : String)
    (pid : Nat) :
    ∀ r ∈ clear_postventa_event (update_postventa_status pdb v pid "cancelada")
        v pid,
      r.vendor_id = v → r.id = pid →
        r.status = some "cancelada" ∧ r.event_id = none ∧ r.htmlLink = none := by
  intro r hr hv hid
  unfold clear_postventa_event at hr
  obtain ⟨r1, hr1, hmk⟩ := List.mem_map.mp hr
  unfold update_postventa_status at hr1
  obtain ⟨r0, _, hmk1⟩ := List.mem_map.mp hr1
  by_cases h0 : (r0.vendor_id == v && r0.id == pid) = true
  · rw [if_pos h0] at hmk1
    have h1 : (r1.vendor_id == v && r1.id == pid) = true := by
      rw [← hmk1]
      exact h0
    rw [if_pos h1] at hmk
    rw [← hmk, ← hmk1]
    exact ⟨rfl, rfl, rfl⟩
  · rw [if_neg h0] at hmk1
    subst hmk1
    by_cases h1 : (r0.vendor_id == v && r0.id == pid) = true
    · exact absurd h1 h0
    · rw [if_neg h1] at hmk
      subst hmk
      simp only [Bool.and_eq_true, beq_iff_eq] at h0
      exact absurd ⟨hv, hid⟩ h0

/-- Claim C6: for a postventa with a (truthy) stored event reference,
a failed (non-404) cancellation leaves the table untouched — status not
persisted, reference unchanged — and reports the retryable error; when
the cancellation succeeds, or when no reference is stored (no
credentials needed then), the status becomes `cancelada` and the
reference is cleared. -/
theorem c6_postventa_cancel_contract (pdb : List PostventaRow) (v : String)
    (pid : Nat) (remote : String → DelOutcome) (pv : PostventaRow)
    (hpv : get_postventa_detail pdb v pid = some pv) :
    (∀ eid, pv.event_id = some eid → eid ≠ "" → delOk (remote eid) = false →
      ui_postventa_cancel pdb v pid true remote =
        { pdb := pdb, msg := .cancelFailed }) ∧
    (∀ eid, pv.event_id = some eid → eid ≠ "" → delOk (remote eid) = true →
      ui_postventa_cancel pdb v pid true remote =
        { pdb := clear_postventa_event
            (update_postventa_status pdb v pid "cancelada") v pid,
          msg := .cancelled }) ∧
    ((pv.event_id = none ∨ pv.event_id = some "") → ∀ hasCreds,
      ui_postventa_cancel pdb v pid hasCreds remote =
        { pdb := clear_postventa_event
            (update_postventa_status pdb v pid "cancelada") v pid,
          msg := .cancelled }) ∧
    (∀ r ∈ clear_postventa_event (update_postventa_status pdb v pid "cancelada")
        v pid,
      r.vendor_id = v → r.id = pid →
        r.status = some "cancelada" ∧ r.event_id = none ∧ r.htmlLink = none) := by
  refine ⟨?_, ?_, ?_, postventa_cancel_final_state pdb v pid⟩
  · intro eid heid hne hbad
    have hfl : (delete_events remote [eid]).failed =
        [failEntry eid (remote eid)] := by
      rw [delete_events_failed_eq]
      simp [List.filter_cons, hbad]
    simp only [ui_postventa_cancel, hpv, heid]
    simp [hne, hfl]
  · intro eid heid hne hok
    have hfl : (delete_events remote [eid]).failed = [] := by
      rw [delete_events_failed_eq]
      simp [List.filter_cons, hok]
    simp only [ui_postventa_cancel, hpv, heid]
    simp [hne, hfl]
  · intro hnone hasCreds
    simp only [ui_postventa_cancel, hpv]
    rcases hnone with h | h <;> simp [h]

/-- Stored postventa row used by the C6 witness. -/
def c6Row : PostventaRow :=
  { id := 1
    vendor_id := "v@x"
    client_name := "ACME"
    phone := some ""
    sale_date := some ""
    postventa_date := "2026-10-19"
    type_ := some "postventa"
    notes := some ""
    status := some "pendiente"
    event_id := some "PV1"
    htmlLink := some "link"
    created_at := "t0"
    quote_number := none }

/-- Witness for C6: concrete failed cancellation (HTTP 503) leaves the
one-row table untouched and reports the error. -/
theorem c6_witness :
    get_postventa_detail [c6Row] "v@x" 1 = some c6Row ∧
    c6Row.event_id = some "PV1" ∧ ("PV1" : String) ≠ "" ∧
    delOk ((fun _ => DelOutcome.httpError (some 503) "unavailable") "PV1") = false ∧
    ui_postventa_cancel [c6Row] "v@x" 1 true
        (fun _ => DelOutcome.httpError (some 503) "unavailable") =
      { pdb := [c6Row], msg := .cancelFailed } :=
  ⟨by decide, by decide, by decide, by decide,
    (c6_postventa_cancel_contract [c6Row] "v@x" 1
        (fun _ => DelOutcome.httpError (some 503) "unavailable") c6Row
        (by decide)).1 "PV1" (by decide) (by decide) (by decide)⟩

/-- Dict returned by `db.get_quote_detail` (the source re-parses the
stored JSON text there and would raise on malformed stored text, which
this program never writes; the parse outcome is carried through, with
the source's `[]` default when the column is NULL or empty). -/
structure QuoteDetail where
  quote_number : String
  extracted : Option Extracted
  events_created : EventsCol
  summary : String
  notes : String
  status : String
  created_at : String
  updated_at : Option String
deriving DecidableEq

/-- Python `db.get_quote_detail`: last row for this vendor and quote
number, with `COALESCE(status,'pendiente')` and the Python-side
`or`-defaults applied. -/
def get_quote_detail (db : List QuoteRow) (v qn : String) : Option QuoteDetail :=
  ((db.filter fun r => r.vendor_id == v && r.quote_number == qn).getLast?).map
    fun r =>
      { quote_number := r.quote_number
        extracted := r.extracted
        events_created := match r.events with
          | none => some (some (.arr []))
          | some p => some p
        summary := r.summary.getD ""
        notes := r.notes.getD ""
        status :=
          let s := r.status.getD "pendiente"
          if s = "" then "pendiente" else s
        created_at := r.created_at
        updated_at := r.updated_at }

/-- Response of `/ui/quote/postventa`. -/
inductive CreatePvResult where
  | quoteNotFound
  | notCerrada
  | noCreds
  | created (new_id : Nat)
deriving DecidableEq

/-- Result of one `/ui/quote/postventa` call: the postventas table
afterwards, whether a remote calendar event was created, and the
response. -/
structure CreatePvOutcome where
  pdb : List PostventaRow
  eventCreated : Bool
  result : CreatePvResult
deriving DecidableEq

/-- Core of `main.ui_quote_create_postventa` after authentication: the
quote must exist and its normalized status must be exactly `cerrada`
before anything is mutated; on success a calendar event is created
(remote response `newEvent`) and a postventa is inserted with
`postventa_date = today + 7 days` (`fmtDate` renders a day count the
way `strftime("%Y-%m-%d")` does). -/
def ui_quote_create_postventa (db : List QuoteRow) (pdb : List PostventaRow)
    (v qn : String) (hasCreds : Bool) (newEvent : PostEvent) (nowDays : Nat)
    (fmtDate : Nat → String) (now : String) : CreatePvOutcome :=
  match get_quote_detail db v qn with
  | none => { pdb := pdb, eventCreated := false, result := .quoteNotFound }
  | some detail =>
    if normStatus detail.status != "cerrada" then
      { pdb := pdb, eventCreated := false, result := .notCerrada }
    else
      let client0 := stripStr ((detail.extracted.map
        (fun e => e.client_name)).getD "")
      let client_name := if client0 = "" then "Cliente" else client0
      let sale_date := stripStr ((detail.extracted.bind
        (fun e => e.issue_date)).getD "")
      let postventa_date := fmtDate (nowDays + 7)
      if !hasCreds then
        { pdb := pdb, eventCreated := false, result := .noCreds }
      else
        let ins := insert_postventa pdb v client_name (some "") (some sale_date)
          postventa_date (some "postventa")
          (some ("Postventa creada desde cotización " ++ qn ++ "."))
          (some newEvent) none now
        { pdb := ins.1, eventCreated := true, result := .created ins.2 }

/-- Claim C8: creating a postventa from a quote is rejected — with no
postventa row appended and no remote event created — unless the quote
exists and its status normalizes to exactly `cerrada`; over the spec's
closed status set, normalizing to `cerrada` is the same as being the
string `"cerrada"`. On success the new row carries
`postventa_date = today + 7 days` and status `pendiente`. -/
theorem c8_postventa_from_quote_precondition (db : List QuoteRow)
    (pdb : List PostventaRow) (v qn : String) (hasCreds : Bool)
    (newEvent : PostEvent) (nowDays : Nat) (fmtDate : Nat → String)
    (now : String) :
    (get_quote_detail db v qn = none →
      ui_quote_create_postventa db pdb v qn hasCreds newEvent nowDays fmtDate now =
        { pdb := pdb, eventCreated := false, result := .quoteNotFound }) ∧
    (∀ d, get_quote_detail db v qn = some d → normStatus d.status ≠ "cerrada" →
      ui_quote_create_postventa db pdb v qn hasCreds newEvent nowDays fmtDate now =
        { pdb := pdb, eventCreated := false, result := .notCerrada }) ∧
    (∀ d, get_quote_detail db v qn = some d → normStatus d.status = "cerrada" →
      hasCreds = true →
      (ui_quote_create_postventa db pdb v qn hasCreds newEvent nowDays fmtDate
          now).eventCreated = true ∧
      (ui_quote_create_postventa db pdb v qn hasCreds newEvent nowDays fmtDate
          now).result = .created (pdb.length + 1) ∧
      ∃ r ∈ (ui_quote_create_postventa db pdb v qn hasCreds newEvent nowDays
          fmtDate now).pdb,
        r.id = pdb.length + 1 ∧ r.postventa_date = fmtDate (nowDays + 7) ∧
        r.status = some "pendiente" ∧ r.vendor_id = v) ∧
    (∀ s ∈ (["pendiente", "contactado", "interesado", "cerrada", "perdida"] :
        List String), (normStatus s = "cerrada" ↔ s = "cerrada")) := by
  refine ⟨?_, ?_, ?_, by decide⟩
  · intro h
    simp only [ui_quote_create_postventa, h]
  · intro d hd hne
    simp only [ui_quote_create_postventa, hd]
    rw [if_pos (by simp [hne])]
  · intro d hd heq hcreds
    subst hcreds
    simp only [ui_quote_create_postventa, hd]
    rw [if_neg (by simp [heq])]
    simp only [Bool.not_true, Bool.false_eq_true, if_false]
    refine ⟨by trivial, by trivial, ?_⟩
    exact ⟨_, List.mem_append_right _ (List.mem_singleton.mpr rfl), rfl, rfl,
      rfl, rfl⟩

/-- Extractor output stored with the C8 witness quote. -/
def c8Extracted : Extracted :=
  { quote_number := "0001-00000006"
    issue_date := some "01/10/2026"
    seller := some "V"
    client_name := "ACME"
    total := some "100" }

/-- Stored closed quote used by the C8 witness. -/
def c8Row : QuoteRow :=
  { vendor_id := "v@x"
    quote_number := "0001-00000006"
    pdf_sha256 := "H6"
    extracted := some c8Extracted
    events := some (some (.arr []))
    created_at := "t0"
    summary := some ""
    notes := some ""
    status := some "cerrada"
    updated_at := some "t1" }

/-- Detail dict of `c8Row` as `get_quote_detail` returns it. -/
def c8Detail : QuoteDetail :=
  { quote_number := "0001-00000006"
    extracted := some c8Extracted
    events_created := some (some (.arr []))
    summary := ""
    notes := ""
    status := "cerrada"
    created_at := "t0"
    updated_at := some "t1" }

/-- Witness for C8: the closed quote `c8Row` admits postventa creation
and the new row is seeded seven days ahead. -/
theorem c8_witness :
    get_quote_detail [c8Row] "v@x" "0001-00000006" = some c8Detail ∧
    normStatus c8Detail.status = "cerrada" ∧
    ((ui_quote_create_postventa [c8Row] [] "v@x" "0001-00000006" true
        { event_id := some "PV9", htmlLink := none } 20745
        (fun n => toString n) "t2").eventCreated = true ∧
      (ui_quote_create_postventa [c8Row] [] "v@x" "0001-00000006" true
        { event_id := some "PV9", htmlLink := none } 20745
        (fun n => toString n) "t2").result = .created 1 ∧
      ∃ r ∈ (ui_quote_create_postventa [c8Row] [] "v@x" "0001-00000006" true
        { event_id := some "PV9", htmlLink := none } 20745
        (fun n => toString n) "t2").pdb,
        r.id = 1 ∧ r.postventa_date = (fun n : Nat => toString n) (20745 + 7) ∧
        r.status = some "pendiente" ∧ r.vendor_id = "v@x") :=
  ⟨by decide, by decide,
    (c8_postventa_from_quote_precondition [c8Row] [] "v@x" "0001-00000006" true
      { event_id := some "PV9", htmlLink := none } 20745 (fun n => toString n)
      "t2").2.2.1 c8Detail (by decide) (by decide) rfl⟩

/-- Rows selected by the filters of `db._count_quotes` (optional vendor
scope, optional `created_at >= from` and `created_at < to` ISO-string
range compared as SQLite TEXT). -/
def quoteRowsInScope (db : List QuoteRow) (vendor : Option String)
    (dfrom dto : Option String) : List QuoteRow :=
  db.filter fun r =>
    (match vendor with | none => true | some v => r.vendor_id == v) &&
    (match dfrom with | none => true | some f => strLe f r.created_at) &&
    (match dto with | none => true | some t => strLt r.created_at t)

/-- Status grouping key of `db._count_quotes`: SQL
`COALESCE(status,'pendiente')` followed by Python
`(st or "pendiente").strip().lower()`. -/
def statusKey (s : Option String) : String :=
  let st := s.getD "pendiente"
  normStatus (if st = "" then "pendiente" else st)

/-- One status counter of the dict `db._count_quotes` returns. -/
def count_quotes_status (db : List QuoteRow) (vendor : Option String)
    (dfrom dto : Option String) (st : String) : Nat :=
  (quoteRowsInScope db vendor dfrom dto).countP
    (fun r => statusKey r.status == st)

/-- The `total` counter of `db._count_quotes`. -/
def count_quotes_total (db : List QuoteRow) (vendor : Option String)
    (dfrom dto : Option String) : Nat :=
  (quoteRowsInScope db vendor dfrom dto).length

/-- Python `db._safe_div`, over exact rationals (the source computes
the same quotient in IEEE floating point): `None` when the denominator
is not positive, else `num / den * 100`. -/
def safe_div (num den : Int) : Option ℚ :=
  if den ≤ 0 then none else some ((num : ℚ) / (den : ℚ) * 100)

/-- Python `round(x, 1)` — round half to even at one decimal — over ℚ.
-/
def roundHalfEven (q : ℚ) : Int :=
  let f := ⌊q⌋
  let frac := q - f
  if frac < 1/2 then f
  else if 1/2 < frac then f + 1
  else if Even f then f else f + 1

/-- Rounding to one decimal as `round(x, 1)` does. -/
def roundTo1 (q : ℚ) : ℚ := (roundHalfEven (q * 10) : ℚ) / 10

/-- The `month.close_rate` field built by `db.get_kpis` for a scope
(either one vendor or the whole fleet) and a month window (the source
derives the window boundaries from `datetime.now()`); the identical
expression also produces `prev_month.close_rate`. -/
def get_kpis_month_close_rate (db : List QuoteRow) (vendor : Option String)
    (mFrom mTo : String) : Option ℚ :=
  let c := count_quotes_status db vendor (some mFrom) (some mTo) "cerrada"
  let p := count_quotes_status db vendor (some mFrom) (some mTo) "perdida"
  match safe_div (c : Int) ((c : Int) + (p : Int)) with
  | none => none
  | some x => some (roundTo1 x)

/-- Claim C7: for every scope (one vendor or the fleet) and month
window, `close_rate` is absent exactly when `cerrada + perdida = 0`
(never reported as `0` there), and when the denominator is positive it
equals `cerrada / (cerrada + perdida) * 100` rounded to one decimal. -/
theorem c7_close_rate_safe_division (db : List QuoteRow)
    (vendor : Option String) (mFrom mTo : String) (c p : Nat)
    (hc : c = count_quotes_status db vendor (some mFrom) (some mTo) "cerrada")
    (hp : p = count_quotes_status db vendor (some mFrom) (some mTo) "perdida") :
    (get_kpis_month_close_rate db vendor mFrom mTo = none ↔ c + p = 0) ∧
    (0 < c + p →
      get_kpis_month_close_rate db vendor mFrom mTo =
        some (roundTo1 ((c : ℚ) / ((c : ℚ) + (p : ℚ)) * 100))) := by
  subst hc hp
  unfold get_kpis_month_close_rate safe_div
  constructor
  · by_cases h : ((count_quotes_status db vendor (some mFrom) (some mTo)
        "cerrada" : Int) +
        (count_quotes_status db vendor (some mFrom) (some mTo) "perdida" : Int)) ≤ 0
    · simp only [if_pos h]
      constructor
      · intro _
        omega
      · intro _
        trivial
    · simp only [if_neg h]
      constructor
      · intro hcontra
        exact absurd hcontra (by simp)
      · intro hz
        omega
  · intro hpos
    have h : ¬ ((count_quotes_status db vendor (some mFrom) (some mTo)
        "cerrada" : Int) +
        (count_quotes_status db vendor (some mFrom) (some mTo) "perdida" : Int)) ≤ 0 := by
      omega
    simp only [if_neg h]
    congr 2
    push_cast
    ring

/-- Quotes table used by the C7 witness: one vendor with one closed and
one lost quote inside the month window, another vendor with only a
pending quote. -/
def c7Db : List QuoteRow :=
  [{ vendor_id := "a@x", quote_number := "Q1", pdf_sha256 := "h1",
     extracted := none, events := none, created_at := "2026-10-05T10:00:00",
     summary := none, notes := none, status := some "cerrada", updated_at := none },
   { vendor_id := "a@x", quote_number := "Q2", pdf_sha256 := "h2",
     extracted := none, events := none, created_at := "2026-10-06T10:00:00",
     summary := none, notes := none, status := some "perdida", updated_at := none },
   { vendor_id := "b@x", quote_number := "Q3", pdf_sha256 := "h3",
     extracted := none, events := none, created_at := "2026-10-07T10:00:00",
     summary := none, notes := none, status := some "pendiente", updated_at := none }]

/-- Witness for C7: vendor `b@x` has a zero denominator and an absent
close rate; the fleet scope has denominator two and the rounded
quotient. -/
theorem c7_witness :
    (0 = count_quotes_status c7Db (some "b@x") (some "2026-10-01T00:00:00")
        (some "2026-11-01T00:00:00") "cerrada" ∧
      0 = count_quotes_status c7Db (some "b@x") (some "2026-10-01T00:00:00")
        (some "2026-11-01T00:00:00") "perdida" ∧
      get_kpis_month_close_rate c7Db (some "b@x") "2026-10-01T00:00:00"
        "2026-11-01T00:00:00" = none) ∧
    (1 = count_quotes_status c7Db none (some "2026-10-01T00:00:00")
        (some "2026-11-01T00:00:00") "cerrada" ∧
      1 = count_quotes_status c7Db none (some "2026-10-01T00:00:00")
        (some "2026-11-01T00:00:00") "perdida" ∧
      get_kpis_month_close_rate c7Db none "2026-10-01T00:00:00"
        "2026-11-01T00:00:00" =
          some (roundTo1 ((1 : ℚ) / ((1 : ℚ) + (1 : ℚ)) * 100))) :=
  ⟨⟨by decide, by decide,
      ((c7_close_rate_safe_division c7Db (some "b@x") "2026-10-01T00:00:00"
        "2026-11-01T00:00:00" 0 0 (by decide) (by decide)).1).mpr rfl⟩,
    ⟨by decide, by decide,
      (c7_close_rate_safe_division c7Db none "2026-10-01T00:00:00"
        "2026-11-01T00:00:00" 1 1 (by decide) (by decide)).2 (by decide)⟩⟩

/-- Rows selected by the filters of `db._count_postventas`. -/
def postventaRowsInScope (pdb : List PostventaRow) (vendor : Option String)
    (dfrom dto : Option String) : List PostventaRow :=
  pdb.filter fun r =>
    (match vendor with | none => true | some v => r.vendor_id == v) &&
    (match dfrom with | none => true | some f => strLe f r.created_at) &&
    (match dto with | none => true | some t => strLt r.created_at t)

/-- One status counter of the dict `db._count_postventas` returns. -/
def count_postventas_status (pdb : List PostventaRow) (vendor : Option String)
    (dfrom dto : Option String) (st : String) : Nat :=
  (postventaRowsInScope pdb vendor dfrom dto).countP
    (fun r => statusKey r.status == st)

/-- The `total` counter of `db._count_postventas`. -/
def count_postventas_total (pdb : List PostventaRow) (vendor : Option String)
    (dfrom dto : Option String) : Nat :=
  (postventaRowsInScope pdb vendor dfrom dto).length

/-- Python `db.list_vendors`: distinct vendor ids of both tables
(`UNION` deduplicates), sorted ascending, with falsy (empty) ids
dropped by the Python comprehension `if r and r[0]`. -/
def list_vendors (qdb : List QuoteRow) (pdb : List PostventaRow) : List String :=
  (List.insertionSort (fun a b => strLe a b = true)
    ((qdb.map (fun r => r.vendor_id) ++ pdb.map (fun r => r.vendor_id)).dedup)).filter
    (fun v => !v.isEmpty)

/-- One row of the monthly vendor ranking `db.list_vendor_kpis_month`.
-/
structure VendorMonthRow where
  vendor_id : String
  quotes_total : Nat
  quotes_cerrada : Nat
  quotes_perdida : Nat
  quotes_pendiente : Nat
  close_rate : Option ℚ
  postventas_total : Nat
  postventas_pendiente : Nat
  postventas_realizada : Nat
  postventas_cancelada : Nat
deriving DecidableEq

/-- The ranking row built for one vendor inside
`db.list_vendor_kpis_month`. -/
def mkVendorMonthRow (qdb : List QuoteRow) (pdb : List PostventaRow)
    (dfrom dto : Option String) (v : String) : VendorMonthRow :=
  let c := count_quotes_status qdb (some v) dfrom dto "cerrada"
  let p := count_quotes_status qdb (some v) dfrom dto "perdida"
  { vendor_id := v
    quotes_total := count_quotes_total qdb (some v) dfrom dto
    quotes_cerrada := c
    quotes_perdida := p
    quotes_pendiente := count_quotes_status qdb (some v) dfrom dto "pendiente"
    close_rate := match safe_div (c : Int) ((c : Int) + (p : Int)) with
      | none => none
      | some x => some (roundTo1 x)
    postventas_total := count_postventas_total pdb (some v) dfrom dto
    postventas_pendiente := count_postventas_status pdb (some v) dfrom dto
      "pendiente"
    postventas_realizada := count_postventas_status pdb (some v) dfrom dto
      "realizada"
    postventas_cancelada := count_postventas_status pdb (some v) dfrom dto
      "cancelada" }

/-- Ordering of the ranking: `out.sort(key=(cerrada, total),
reverse=True)` places `a` before `b` when `a` closed strictly more, or
closed the same amount with at least as many quotes. -/
def rankGe (a b : VendorMonthRow) : Prop :=
  b.quotes_cerrada < a.quotes_cerrada ∨
    (a.quotes_cerrada = b.quotes_cerrada ∧ b.quotes_total ≤ a.quotes_total)

instance : DecidableRel rankGe := fun a b =>
  if h : b.quotes_cerrada < a.quotes_cerrada ∨
      (a.quotes_cerrada = b.quotes_cerrada ∧ b.quotes_total ≤ a.quotes_total)
  then .isTrue h else .isFalse h

instance : IsTotal VendorMonthRow rankGe :=
  ⟨fun a b => by unfold rankGe; omega⟩

instance : IsTrans VendorMonthRow rankGe :=
  ⟨fun a b c hab hbc => by
    unfold rankGe at hab hbc ⊢
    omega⟩

/-- Python `db.list_vendor_kpis_month` with the month window passed in
(the source derives it from `datetime.now()`): one row per vendor from
`list_vendors`, sorted by the closed-then-total descending key
(`list.sort` is stable; a stable insertion sort over the same key
ordering produces the same list). -/
def list_vendor_kpis_month (qdb : List QuoteRow) (pdb : List PostventaRow)
    (dfrom dto : String) : List VendorMonthRow :=
  List.insertionSort rankGe
    ((list_vendors qdb pdb).map (mkVendorMonthRow qdb pdb (some dfrom) (some dto)))

theorem list_vendors_nodup (qdb : List QuoteRow) (pdb : List PostventaRow) :
    (list_vendors qdb pdb).Nodup := by
  unfold list_vendors
  refine List.Nodup.filter _ ?_
  exact (List.perm_insertionSort _ _).symm.nodup (List.nodup_dedup _)

theorem mem_list_vendors (qdb : List QuoteRow) (pdb : List PostventaRow)
    (v : String) :
    v ∈ list_vendors qdb pdb ↔
      (v ∈ qdb.map (fun r => r.vendor_id) ++ pdb.map (fun r => r.vendor_id) ∧
        v ≠ "") := by
  unfold list_vendors
  rw [List.mem_filter, (List.perm_insertionSort _ _).mem_iff, List.mem_dedup]
  constructor
  · rintro ⟨h1, h2⟩
    refine ⟨h1, ?_⟩
    intro hv
    rw [hv] at h2
    exact absurd h2 (by decide)
  · rintro ⟨h1, h2⟩
    refine ⟨h1, ?_⟩
    cases he : v.isEmpty with
    | false => rfl
    | true => exact absurd ((String.isEmpty_iff v).mp he) h2

/-- Claim C9: the monthly ranking has exactly one row per distinct
vendor id appearing in either table (given the application invariant
that vendor ids — authenticated e-mail addresses — are non-empty), and
every earlier row relates to every later row by strictly more closed
quotes, or equally many closed and at least as many total quotes. -/
theorem c9_ranking_rows_and_order (qdb : List QuoteRow)
    (pdb : List PostventaRow) (dfrom dto : String)
    (hne : ∀ v ∈ qdb.map (fun r => r.vendor_id) ++
      pdb.map (fun r => r.vendor_id), v ≠ "") :
    ((list_vendor_kpis_month qdb pdb dfrom dto).map
      (fun r => r.vendor_id)).Nodup ∧
    (∀ v, v ∈ (list_vendor_kpis_month qdb pdb dfrom dto).map
        (fun r => r.vendor_id) ↔
      ((∃ r ∈ qdb, r.vendor_id = v) ∨ (∃ r ∈ pdb, r.vendor_id = v))) ∧
    (list_vendor_kpis_month qdb pdb dfrom dto).Pairwise rankGe := by
  have hperm : List.Perm (list_vendor_kpis_month qdb pdb dfrom dto)
      ((list_vendors qdb pdb).map (mkVendorMonthRow qdb pdb (some dfrom)
        (some dto))) :=
    List.perm_insertionSort _ _
  have hvid : ((list_vendors qdb pdb).map (mkVendorMonthRow qdb pdb (some dfrom)
      (some dto))).map (fun r => r.vendor_id) = list_vendors qdb pdb := by
    rw [List.map_map]
    have : ((fun r : VendorMonthRow => r.vendor_id) ∘
        mkVendorMonthRow qdb pdb (some dfrom) (some dto)) = fun v : String => v := by
      funext v
      rfl
    rw [this]
    simp
  refine ⟨?_, ?_, ?_⟩
  · exact (hperm.map (fun r => r.vendor_id)).symm.nodup
      (by rw [hvid]; exact list_vendors_nodup qdb pdb)
  · intro v
    rw [(hperm.map (fun r => r.vendor_id)).mem_iff, hvid, mem_list_vendors]
    constructor
    · rintro ⟨h1, _⟩
      rcases List.mem_append.mp h1 with h | h
      · obtain ⟨r, hr, hrv⟩ := List.mem_map.mp h
        exact Or.inl ⟨r, hr, hrv⟩
      · obtain ⟨r, hr, hrv⟩ := List.mem_map.mp h
        exact Or.inr ⟨r, hr, hrv⟩
    · intro h
      have hmem : v ∈ qdb.map (fun r => r.vendor_id) ++
          pdb.map (fun r => r.vendor_id) := by
        rcases h with ⟨r, hr, hrv⟩ | ⟨r, hr, hrv⟩
        · exact List.mem_append.mpr (Or.inl (List.mem_map.mpr ⟨r, hr, hrv⟩))
        · exact List.mem_append.mpr (Or.inr (List.mem_map.mpr ⟨r, hr, hrv⟩))
      exact ⟨hmem, hne v hmem⟩
  · exact List.sorted_insertionSort rankGe _

/-- Quotes table used by the C9 witness (vendor `a@x` closes one of two
quotes, vendor `b@x` has one open quote). -/
def c9Qdb : List QuoteRow :=
  [{ vendor_id := "a@x", quote_number := "Q1", pdf_sha256 := "h1",
     extracted := none, events := none, created_at := "2026-10-05T10:00:00",
     summary := none, notes := none, status := some "cerrada", updated_at := none },
   { vendor_id := "a@x", quote_number := "Q2", pdf_sha256 := "h2",
     extracted := none, events := none, created_at := "2026-10-06T10:00:00",
     summary := none, notes := none, status := some "pendiente", updated_at := none },
   { vendor_id := "b@x", quote_number := "Q3", pdf_sha256 := "h3",
     extracted := none, events := none, created_at := "2026-10-07T10:00:00",
     summary := none, notes := none, status := some "pendiente", updated_at := none }]

/-- Postventas table used by the C9 witness (a third vendor appearing
only here). -/
def c9Pdb : List PostventaRow :=
  [{ id := 1, vendor_id := "c@x", client_name := "ACME", phone := none,
     sale_date := none, postventa_date := "2026-10-20", type_ := some "postventa",
     notes := some "", status := some "pendiente", event_id := none,
     htmlLink := none, created_at := "2026-10-08T10:00:00", quote_number := none }]

/-- Witness for C9 at concrete two-table data with three vendors. -/
theorem c9_witness :
    (∀ v ∈ c9Qdb.map (fun r => r.vendor_id) ++
      c9Pdb.map (fun r => r.vendor_id), v ≠ "") ∧
    (((list_vendor_kpis_month c9Qdb c9Pdb "2026-10-01T00:00:00"
        "2026-11-01T00:00:00").map (fun r => r.vendor_id)).Nodup ∧
      (∀ v, v ∈ (list_vendor_kpis_month c9Qdb c9Pdb "2026-10-01T00:00:00"
          "2026-11-01T00:00:00").map (fun r => r.vendor_id) ↔
        ((∃ r ∈ c9Qdb, r.vendor_id = v) ∨ (∃ r ∈ c9Pdb, r.vendor_id = v))) ∧
      (list_vendor_kpis_month c9Qdb c9Pdb "2026-10-01T00:00:00"
        "2026-11-01T00:00:00").Pairwise rankGe) :=
  ⟨by decide,
    c9_ranking_rows_and_order c9Qdb c9Pdb "2026-10-01T00:00:00"
      "2026-11-01T00:00:00" (by decide)⟩

/-- Stored row whose `events_json` text parses to the JSON number `3`;
`db.get_event_ids` then raises an uncaught `TypeError` at
`for e in events`. -/
def c10Row : QuoteRow :=
  { vendor_id := "v@x"
    quote_number := "0001-00000010"
    pdf_sha256 := "h10"
    extracted := none
    events := some (some (.num 3))
    created_at := "t0"
    summary := none
    notes := none
    status := some "pendiente"
    updated_at := none }

/-- Counterexample to claim C10: with stored `events_json` text `"3"`
(valid JSON, parsed to a number), `db.get_event_ids` is not total — the
`try/except` only guards `json.loads`, and iterating the parsed number
raises an uncaught `TypeError`, modelled as `Except.error ()`. -/
theorem c10_counterexample :
    get_event_ids [c10Row] "v@x" "0001-00000010" = .error () := by decide

/-- Claim C10 amended: reading the stored event ids never fails
provided the stored text, when present and parseable, parses to an
array, object or string; a missing row, NULL/empty column or
unparseable text give `[]`; an array yields, in stored order, each dict
entry's truthy `event_id` (or, failing that, truthy `id`) value,
skipping entries that are not dicts or have neither key truthy; parsed
objects and strings yield `[]` (their iteration produces strings, never
dicts); a parsed number, boolean or `null` raises (`Except.error ()`).
-/
theorem c10_amended_event_ids_reading (db : List QuoteRow) (v qn : String) :
    ((db.filter fun r => r.vendor_id == v && r.quote_number == qn).getLast? =
        none → get_event_ids db v qn = .ok []) ∧
    (∀ r, (db.filter fun r => r.vendor_id == v && r.quote_number == qn).getLast? =
        some r →
      (r.events = none ∨ r.events = some none →
        get_event_ids db v qn = .ok []) ∧
      (∀ es, r.events = some (some (.arr es)) →
        get_event_ids db v qn = .ok (es.filterMap extractEventId)) ∧
      (∀ s, r.events = some (some (.str s)) → get_event_ids db v qn = .ok []) ∧
      (∀ kvs, r.events = some (some (.obj kvs)) →
        get_event_ids db v qn = .ok []) ∧
      ((r.events = some (some .null) ∨ (∃ b, r.events = some (some (.bool b))) ∨
          (∃ n, r.events = some (some (.num n)))) →
        get_event_ids db v qn = .error ())) ∧
    (∀ e, extractEventId e ≠ none → ∃ kvs, e = .obj kvs) ∧
    (∀ kvs, (Json.obj kvs).get? "event_id" = none →
      (Json.obj kvs).get? "id" = none → extractEventId (.obj kvs) = none) := by
  refine ⟨?_, ?_, ?_, ?_⟩
  · intro h
    simp [get_event_ids, h]
  · intro r hr
    refine ⟨?_, ?_, ?_, ?_, ?_⟩
    · rintro (h | h) <;> simp [get_event_ids, hr, h]
    · intro es h
      simp [get_event_ids, hr, h]
    · intro s h
      simp [get_event_ids, hr, h]
    · intro kvs h
      simp [get_event_ids, hr, h]
    · rintro (h | ⟨b, h⟩ | ⟨n, h⟩) <;> simp [get_event_ids, hr, h]
  · intro e he
    cases e with
    | obj kvs => exact ⟨kvs, rfl⟩
    | null => exact absurd rfl he
    | bool b => exact absurd rfl he
    | num n => exact absurd rfl he
    | str s => exact absurd rfl he
    | arr es => exact absurd rfl he
  · intro kvs h1 h2
    simp [extractEventId, h1, h2, Json.truthy]

/-- Stored row used by the C10 witness: a well-formed array with one
extractable entry, one non-dict entry and one dict without id keys. -/
def c10GoodRow : QuoteRow :=
  { vendor_id := "v@x"
    quote_number := "0001-00000011"
    pdf_sha256 := "h11"
    extracted := none
    events := some (some (.arr [.obj [("event_id", .str "X1")], .str "junk",
      .obj [("tag", .str "48h")]]))
    created_at := "t0"
    summary := none
    notes := none
    status := some "pendiente"
    updated_at := none }

/-- Witness for the amended C10: the array case yields exactly the
truthy event id of the one well-formed entry. -/
theorem c10_witness :
    (([c10GoodRow].filter fun r => r.vendor_id == "v@x" &&
        r.quote_number == "0001-00000011").getLast? = some c10GoodRow ∧
      c10GoodRow.events = some (some (.arr [.obj [("event_id", .str "X1")],
        .str "junk", .obj [("tag", .str "48h")]]))) ∧
    get_event_ids [c10GoodRow] "v@x" "0001-00000011" =
      .ok (([.obj [("event_id", .str "X1")], .str "junk",
        .obj [("tag", .str "48h")]] : List Json).filterMap extractEventId) ∧
    ([.obj [("event_id", .str "X1")], .str "junk",
      .obj [("tag", .str "48h")]] : List Json).filterMap extractEventId =
      [.str "X1"] :=
  ⟨⟨by decide, rfl⟩,
    ((c10_amended_event_ids_reading [c10GoodRow] "v@x" "0001-00000011").2.1
      c10GoodRow (by decide)).2.1 _ rfl,
    by decide⟩
